import Mathlib

/-!
Verification of the marketing email generator pipeline tools.

This file embeds the deterministic validation tools of the repository
(file `basic/tools.py`: `brand_check`, `safety_check`, `reject_email_tool`,
`deploy_email_to_sfmc_tool`) as Lean definitions and proves properties of
them. Python strings are modelled as `List Char`; Python dictionaries with
a fixed set of expected keys are modelled as structures with `Option`
fields (a `none` field models a missing key); arbitrary JSON-like Python
values are modelled by the inductive type `PyVal` below.
-/

namespace EmailGen

/-- A Python string, modelled as its list of characters. -/
abbrev PyStr := List Char

/-- The whitespace characters stripped by the Python `str.rstrip()` default
(space, tab, newline, carriage return, vertical tab, form feed); the inputs
in this development are ASCII, so the extra Unicode space characters that
CPython also strips are irrelevant here. -/
def pyIsSpace (c : Char) : Bool :=
  c = ' ' || c = '\t' || c = '\n' || c = '\r' || c = '\x0b' || c = '\x0c'

/-- Python `s.lower()`: character-wise lowercasing. All texts the tools
inspect are ASCII (the JSON serialisation below escapes every non-ASCII
character), where `Char.toLower` agrees with CPython. -/
def pyLower (s : PyStr) : PyStr := s.map Char.toLower

/-- Python `s.rstrip()`: drop trailing whitespace. `List.rdropWhile p l`
is definitionally `(l.reverse.dropWhile p).reverse`, which is exactly the
behaviour of `rstrip`. -/
def pyRstrip (s : PyStr) : PyStr := List.rdropWhile pyIsSpace s

/-- Python `s[:n]` for an arbitrary integer `n`: a nonnegative `n` keeps the
first `n` characters (clamped to the length); a negative `n` keeps all but
the last `-n` characters (clamped to the empty string). -/
def pySliceTo (s : PyStr) (n : Int) : PyStr :=
  if 0 ≤ n then s.take n.toNat else s.take (s.length - n.natAbs)

/-- Python substring test `needle in haystack`. -/
def pyIn (needle haystack : PyStr) : Bool := decide (needle <:+: haystack)

/-- Python truthiness of an optional string (`if disclaimer:`): `None` and
the empty string are falsy, every other string is truthy. -/
def strTruthy : Option PyStr → Bool
  | Option.none => false
  | some s => !s.isEmpty

/-- The draft/governed email dictionary of `tools.py`:
`\x7b"subject_lines": [...], "body_variants": [...]\x7d`. A `none` field
models a dictionary in which the key is missing (`dict.get` then returns
its default). -/
structure DraftEmail where
  subject_lines : Option (List PyStr)
  body_variants : Option (List PyStr)
deriving DecidableEq

/-- The creative guidelines dictionary of `tools.py`, with keys
`banned_phrases` (optional list), `subject_length_limit` (optional int,
default 60) and `disclaimer` (optional string). -/
structure CreativeGuidelines where
  banned_phrases : Option (List PyStr)
  subject_length_limit : Option Int
  disclaimer : Option PyStr
deriving DecidableEq

/-- The per-subject transformation of `brand_check` applied to a surviving
subject line: `s[:limit].rstrip()`. -/
def processSubject (limit : Int) (s : PyStr) : PyStr := pyRstrip (pySliceTo s limit)

/-- `brand_check(draft_email, creative_guidelines)` from `basic/tools.py`:
  * `banned` is the lowercased set of `creative_guidelines.get("banned_phrases") or []`;
  * `limit` is `int(creative_guidelines.get("subject_length_limit", 60))`;
  * every subject whose lowercasing contains a banned phrase is dropped,
    the others are truncated to `limit` and right-stripped;
  * if the disclaimer is truthy it is appended to every body variant as
    `b + "\n\n*" + disclaimer + "*"`. -/
def brand_check (draft_email : DraftEmail) (creative_guidelines : CreativeGuidelines) :
    DraftEmail :=
  let banned : List PyStr := (creative_guidelines.banned_phrases.getD []).map pyLower
  let limit : Int := creative_guidelines.subject_length_limit.getD 60
  let filtered_subjects : List PyStr :=
    (draft_email.subject_lines.getD []).filterMap fun s =>
      if banned.any (fun b => pyIn b (pyLower s)) then Option.none
      else some (processSubject limit s)
  let bodies : List PyStr := draft_email.body_variants.getD []
  let disclaimer : Option PyStr := creative_guidelines.disclaimer
  let bodies : List PyStr :=
    if strTruthy disclaimer then
      bodies.map fun b => b ++ ('\n' :: '\n' :: '*' :: (disclaimer.getD [] ++ ['*']))
    else bodies
  ⟨some filtered_subjects, some bodies⟩

/-! ### JSON-like Python values and `json.dumps`

`safety_check` serialises its whole argument with `json.dumps` before
inspecting the text, and `json.dumps` raises `TypeError` on values that are
not JSON-serialisable (e.g. Python sets). `PyVal` models the values such a
dictionary can hold; the mutual inductive presentation (instead of nested
`List PyVal`) keeps all recursions structural, hence kernel-evaluable. -/

mutual

inductive PyVal where
  | str : PyStr → PyVal
  | int : Int → PyVal
  | bool : Bool → PyVal
  | pynone : PyVal
  | list : PyList → PyVal
  | dict : PyDict → PyVal
  | set : PyList → PyVal

inductive PyList where
  | nil : PyList
  | cons : PyVal → PyList → PyList

inductive PyDict where
  | nil : PyDict
  | cons : PyStr → PyVal → PyDict → PyDict

end

/-- Lowercase hexadecimal digit, as used by the CPython JSON encoder. -/
def hexDigit (n : Nat) : Char :=
  if n < 10 then Char.ofNat (48 + n) else Char.ofNat (87 + n)

/-- A JSON unicode escape: backslash, `u`, four lowercase hex digits. -/
def uEscape (n : Nat) : PyStr :=
  ['\\', 'u', hexDigit (n / 4096 % 16), hexDigit (n / 256 % 16),
   hexDigit (n / 16 % 16), hexDigit (n % 16)]

/-- Per-character escaping of the CPython JSON encoder with its default
`ensure_ascii=True`: quote, backslash and the named control characters get
two-character escapes, other controls and all non-ASCII characters become
`\u` escapes (a surrogate pair beyond the BMP); printable ASCII is kept. -/
def escapeChar (c : Char) : PyStr :=
  if c = '"' then ['\\', '"']
  else if c = '\\' then ['\\', '\\']
  else if c = '\n' then ['\\', 'n']
  else if c = '\t' then ['\\', 't']
  else if c = '\r' then ['\\', 'r']
  else if c.toNat = 8 then ['\\', 'b']
  else if c.toNat = 12 then ['\\', 'f']
  else if c.toNat < 32 then uEscape c.toNat
  else if c.toNat < 127 then [c]
  else if c.toNat < 65536 then uEscape c.toNat
  else uEscape (55296 + (c.toNat - 65536) / 1024) ++ uEscape (56320 + (c.toNat - 65536) % 1024)

/-- A JSON string literal: the escaped characters between double quotes. -/
def encStr (s : PyStr) : PyStr := '"' :: ((s.map escapeChar).flatten ++ ['"'])

/-- The `", "` item separator of `json.dumps` with default separators. -/
def joinComma (parts : List PyStr) : PyStr := (parts.intersperse (", ".toList)).flatten

mutual

/-- `json.dumps(v)` with CPython defaults, or the `TypeError` message when
`v` contains a set. Dictionaries render as `\x7b"k": v, ...\x7d`, lists as
`[v, ...]`, `True/False/None` as `true/false/null`. -/
def pyJsonDumps : PyVal → Except String PyStr
  | .str s => .ok (encStr s)
  | .int n => .ok (toString n).toList
  | .bool b => .ok (if b then "true".toList else "false".toList)
  | .pynone => .ok "null".toList
  | .list xs =>
    match dumpsList xs with
    | .error e => .error e
    | .ok parts => .ok ('[' :: (joinComma parts ++ [']']))
  | .dict kvs =>
    match dumpsDict kvs with
    | .error e => .error e
    | .ok parts => .ok ('\x7b' :: (joinComma parts ++ ['\x7d']))
  | .set _ => .error "Object of type set is not JSON serializable"

/-- Serialise the elements of a list value, left to right. -/
def dumpsList : PyList → Except String (List PyStr)
  | .nil => .ok []
  | .cons v vs =>
    match pyJsonDumps v with
    | .error e => .error e
    | .ok s =>
      match dumpsList vs with
      | .error e => .error e
      | .ok rest => .ok (s :: rest)

/-- Serialise the entries of a dictionary value, in insertion order, each
as `"key": value`. -/
def dumpsDict : PyDict → Except String (List PyStr)
  | .nil => .ok []
  | .cons k v kvs =>
    match pyJsonDumps v with
    | .error e => .error e
    | .ok s =>
      match dumpsDict kvs with
      | .error e => .error e
      | .ok rest => .ok ((encStr k ++ (':' :: ' ' :: s)) :: rest)

end

/-! ### The PII regular expression of `safety_check`, as actually compiled

The source passes the RAW string
`r"[\\w\\.-]+@[\\w\\.-]+|\\b\\d{3}[-.\\s]?\\d{3}[-.\\s]?\\d{4}\\b"`
to `re.search`. Because the string is raw, every doubled backslash reaches
the regex engine as an ESCAPED backslash matching a literal backslash
character, not as the `\w`, `\d`, `\b`, `\s` classes the comments in the
source describe. The compiled pattern is therefore:
  * first alternative: one or more characters from the literal class
    (backslash, w, dot, hyphen), then `@`, then one or more characters
    from that class again;
  * second alternative: the literal text backslash `b` backslash `ddd`,
    an optional separator from the literal class (hyphen, dot, backslash,
    s), backslash `ddd`, an optional separator, backslash `dddd` backslash
    `b` — each repetition quantifier applies only to the letter `d` that
    immediately precedes it, not to the escaped backslash before that.
The functions below implement `re.search` of exactly this compiled
pattern: a match of the first alternative exists in a text iff some
position carries a class character, `@`, and a class character adjacently;
the second alternative is matched piecewise with both choices tried for
each optional separator. -/

/-- The literal character class compiled from `[\\w\\.-]`: backslash, `w`,
dot, hyphen. -/
def cls1 (c : Char) : Bool := c = '\\' || c = 'w' || c = '.' || c = '-'

/-- The literal separator class compiled from `[-.\\s]`: hyphen, dot,
backslash, `s`. -/
def sepCls (c : Char) : Bool := c = '-' || c = '.' || c = '\\' || c = 's'

/-- Whether the first alternative (class-run, `@`, class-run) matches
anywhere in the text: search for an adjacent triple. -/
def emailAltSearch : PyStr → Bool
  | a :: b :: c :: rest => (cls1 a && b = '@' && cls1 c) || emailAltSearch (b :: c :: rest)
  | _ => false

/-- Consume an exact literal prefix, returning the rest of the text. -/
def matchLiteral : PyStr → PyStr → Option PyStr
  | [], s => some s
  | _ :: _, [] => Option.none
  | p :: ps, c :: cs => if p = c then matchLiteral ps cs else Option.none

/-- The final piece of the second alternative: literal backslash `dddd`
backslash `b`. -/
def phoneEnd (u : PyStr) : Bool :=
  (matchLiteral ['\\', 'd', 'd', 'd', 'd', '\\', 'b'] u).isSome

/-- The middle piece: literal backslash `ddd`, then an optional separator,
then the final piece. -/
def phoneMid (t : PyStr) : Bool :=
  match matchLiteral ['\\', 'd', 'd', 'd'] t with
  | Option.none => false
  | some r =>
    phoneEnd r || (match r with | c :: cs => sepCls c && phoneEnd cs | [] => false)

/-- Whether the second alternative matches starting exactly here: literal
backslash `b` backslash `ddd`, optional separator, middle piece. -/
def phoneAt (s : PyStr) : Bool :=
  match matchLiteral ['\\', 'b', '\\', 'd', 'd', 'd'] s with
  | Option.none => false
  | some r =>
    phoneMid r || (match r with | c :: cs => sepCls c && phoneMid cs | [] => false)

/-- Whether the second alternative matches anywhere in the text. -/
def phoneAltSearch : PyStr → Bool
  | [] => false
  | c :: cs => phoneAt (c :: cs) || phoneAltSearch cs

/-- `re.search` of the full (broken) PII pattern: either alternative,
anywhere in the text. -/
def brokenPiiSearch (s : PyStr) : Bool := emailAltSearch s || phoneAltSearch s

/-! ### `safety_check` -/

/-- The report dictionary returned by `safety_check`. -/
structure SafetyReport where
  safe : Bool
  spam_hits : List PyStr
  pii_detected : Bool
deriving DecidableEq

/-- The spam trigger words of `safety_check`. The source iterates over a
Python set literal whose iteration order is interpreter-defined; the model
iterates in the literal order, which can only affect the order of
`spam_hits`, never its membership or emptiness. -/
def spamTriggers : List PyStr := ["free".toList, "guaranteed".toList, "urgent".toList]

/-- `safety_check(governed_email)` from `basic/tools.py`: serialise the
whole input with `json.dumps` and lowercase it, collect the spam trigger
words occurring as substrings, search the (broken) PII pattern, and derive
`safe`. The source wraps nothing in a handler, so a `TypeError` from
`json.dumps` propagates to the caller; the model returns it as `.error`. -/
def safety_check (governed_email : PyVal) : Except String SafetyReport :=
  match pyJsonDumps governed_email with
  | .error e => .error e
  | .ok dumped =>
    let text := pyLower dumped
    let spam_hits := spamTriggers.filter fun w => pyIn w text
    let pii := brokenPiiSearch text
    .ok ⟨spam_hits.isEmpty && !pii, spam_hits, pii⟩

/-! ### `reject_email_tool` and `deploy_email_to_sfmc_tool` -/

/-- `reject_email_tool()` from `basic/tools.py`: a no-argument function
returning a fixed confirmation string. -/
def reject_email_tool : Unit → PyStr :=
  fun _ => "Email rejected by human approval.".toList

/-- The deployment result dictionary of `deploy_email_to_sfmc_tool`. -/
structure DeploymentResult where
  sfmc_id : PyStr
  status : PyStr
  note : PyStr
deriving DecidableEq

/-- `deploy_email_to_sfmc_tool(governed_email)` from `basic/tools.py`. The
source draws `uuid.uuid4().hex` (32 random hex characters); the model
takes that random string as the explicit argument `uuid4hex`. The id is
`"sfmc_"` followed by the first 8 characters of it; the status is always
`"queued"` (the QUEUED deployment status). -/
def deploy_email_to_sfmc_tool (governed_email : PyVal) (uuid4hex : PyStr) :
    DeploymentResult :=
  { sfmc_id := "sfmc_".toList ++ uuid4hex.take 8
    status := "queued".toList
    note := "Mock SFMC draft created successfully.".toList }

end EmailGen


/-! ## Helper lemmas -/

namespace EmailGen

theorem pyIn_true_iff (x y : PyStr) : pyIn x y = true ↔ x <:+: y := by
  simp [pyIn]

theorem processSubject_prefix_self (limit : Int) (s : PyStr) :
    processSubject limit s <+: s := by
  unfold processSubject pySliceTo pyRstrip
  split
  · exact (List.rdropWhile_prefix _ _).trans (List.take_prefix _ _)
  · exact (List.rdropWhile_prefix _ _).trans (List.take_prefix _ _)

theorem processSubject_length_le (limit : Int) (h : 0 ≤ limit) (s : PyStr) :
    (processSubject limit s).length ≤ limit.toNat := by
  unfold processSubject pySliceTo pyRstrip
  rw [if_pos h]
  exact le_trans (List.rdropWhile_prefix _ _).length_le (List.length_take_le _ _)

theorem processSubject_idem (limit : Int) (h : 0 ≤ limit) (s : PyStr) :
    processSubject limit (processSubject limit s) = processSubject limit s := by
  unfold processSubject pySliceTo pyRstrip
  rw [if_pos h, if_pos h,
    List.take_of_length_le
      (le_trans (List.rdropWhile_prefix _ _).length_le (List.length_take_le _ _)),
    List.rdropWhile_idempotent]

theorem pyIn_mono (x s t : PyStr) (hpre : t <+: s) (hx : pyIn x t = true) :
    pyIn x s = true := by
  rw [pyIn_true_iff] at hx ⊢
  exact hx.trans hpre.isInfix

theorem filterMap_if_sublist (p : PyStr → Bool) (gf : PyStr → PyStr) (l : List PyStr) :
    List.Sublist
      (l.filterMap fun s => if p s then Option.none else some (gf s))
      (l.map gf) := by
  induction l with
  | nil => simp
  | cons a l ih =>
    rw [List.filterMap_cons, List.map_cons]
    cases hp : p a with
    | true => simpa [hp] using ih.cons _
    | false => simpa [hp] using ih.cons₂ (gf a)

end EmailGen

/-! ## Concrete inputs used in the claim theorems -/

namespace EmailGen

/-- The end-to-end scenario 1 draft email. -/
def scenario1Draft : DraftEmail :=
  ⟨some ["WIN FREE CASH NOW".toList, "Monthly Update".toList, "Re: invoice 123".toList],
   some ["Hi there".toList, "Thanks".toList]⟩

/-- The end-to-end scenario 1 creative guidelines. -/
def scenario1Guidelines : CreativeGuidelines :=
  ⟨some ["free".toList], some 15, some "Terms apply".toList⟩

/-- The scenario 2 input of `safety_check`. -/
def scenario2Input : PyVal :=
  .dict (.cons "text".toList (.str "Contact me at a@b.com, guaranteed reply".toList) .nil)

/-- A dictionary holding a Python set: `json.dumps` raises `TypeError` on it. -/
def unserializableInput : PyVal := .dict (.cons "x".toList (.set .nil) .nil)

/-- A harmless input for `safety_check`: no trigger word, no PII shape. -/
def benignInput : PyVal := .dict (.cons "text".toList (.str "hello".toList) .nil)

end EmailGen

/-! ## Claim theorems -/

namespace EmailGen

/-- C1: the claim states that `pii_detected` is true iff the lowercased
serialisation contains an email-address-shaped or phone-number-shaped
substring, and in particular that it is true on
`\x7b"text": "Contact me at a@b.com, guaranteed reply"\x7d`. The code
disagrees: its regex is a raw string whose doubled backslashes match
literal backslash characters instead of the `\w`/`\d` classes its own
comments describe, so on the scenario input — whose serialisation contains
the email-address-shaped substring `a@b.com` and no backslash — it returns
`pii_detected = false` (with `spam_hits = ["guaranteed"]` and
`safe = false`). -/
theorem c1_pii_not_detected_on_scenario2 :
    safety_check scenario2Input =
      .ok ⟨false, ["guaranteed".toList], false⟩ := rfl

/-- C2 counterexample: the claim states that `safety_check` never raises
and degrades unserialisable input to the fail-closed report
`safe = false, spam_hits = [], pii_detected = true`. The code has no
exception handler: on a dictionary holding a Python set the `TypeError`
from `json.dumps` propagates (modelled as `.error`), and in particular the
fail-closed report is not returned. -/
theorem c2_counterexample :
    safety_check unserializableInput =
      .error "Object of type set is not JSON serializable" ∧
    safety_check unserializableInput ≠
      .ok ⟨false, [], true⟩ :=
  ⟨rfl, fun h => Except.noConfusion h⟩

/-- C2 amended: `safety_check` returns a report exactly on the inputs whose
`json.dumps` serialisation succeeds; when serialisation fails the error
propagates to the caller instead of being degraded to a report. -/
theorem c2_amended_raises_iff_dumps_fails (v : PyVal) :
    (safety_check v).isOk = (pyJsonDumps v).isOk := by
  unfold safety_check
  cases pyJsonDumps v <;> rfl

/-- C3 counterexample: the claim states that the governed subject list of
end-to-end scenario 1 is exactly `["Monthly Update", "Re: invoice 12"]`.
The code disagrees: `"Re: invoice 123"` has exactly 15 characters, so
truncation to the limit 15 keeps it whole. -/
theorem c3_counterexample :
    (brand_check scenario1Draft scenario1Guidelines).subject_lines ≠
      some ["Monthly Update".toList, "Re: invoice 12".toList] := by decide

/-- C3 amended: on the scenario 1 draft and guidelines, `brand_check`
returns the subjects `["Monthly Update", "Re: invoice 123"]` (the first
input subject is dropped for the banned phrase, the third — being exactly
15 characters long — survives untruncated), and each returned body variant
is the input body with `"\n\n*Terms apply*"` appended, hence ends with it. -/
theorem c3_amended_scenario1_eval :
    brand_check scenario1Draft scenario1Guidelines =
      ⟨some ["Monthly Update".toList, "Re: invoice 123".toList],
       some ["Hi there\n\n*Terms apply*".toList, "Thanks\n\n*Terms apply*".toList]⟩ := by
  decide

/-- C4: every report that `safety_check` returns has
`safe = (spam_hits is empty AND pii_detected is false)`; `safe` is derived
from the other two fields. -/
theorem c4_safe_is_derived (v : PyVal) (r : SafetyReport)
    (h : safety_check v = .ok r) :
    r.safe = (r.spam_hits.isEmpty && !r.pii_detected) := by
  unfold safety_check at h
  cases hd : pyJsonDumps v with
  | error e => rw [hd] at h; exact Except.noConfusion h
  | ok t =>
    rw [hd] at h
    injection h with h
    subst h
    rfl

/-- C4 witness: the hypothesis of `c4_safe_is_derived` instantiated at a
concrete input and its concrete report. -/
theorem c4_witness :
    safety_check benignInput = .ok ⟨true, [], false⟩ ∧
    (SafetyReport.mk true [] false).safe =
      ((SafetyReport.mk true [] false).spam_hits.isEmpty &&
        !(SafetyReport.mk true [] false).pii_detected) :=
  ⟨rfl, c4_safe_is_derived benignInput ⟨true, [], false⟩ rfl⟩

end EmailGen

namespace EmailGen

/-- C7: for every governed email input (and every value of the random hex
string drawn from `uuid4`), the deploy action returns status `"queued"`
(the QUEUED deployment status) and a non-empty identifier — the identifier
always starts with the prefix `"sfmc_"`. -/
theorem c7_deploy_queued_nonempty_id (governed_email : PyVal) (uuid4hex : PyStr) :
    (deploy_email_to_sfmc_tool governed_email uuid4hex).status = "queued".toList ∧
    (deploy_email_to_sfmc_tool governed_email uuid4hex).sfmc_id ≠ [] :=
  ⟨rfl, fun h => List.noConfusion h⟩

/-- C8: the reject action takes no argument (its only parameter is the
trivial unit), always succeeds (it is a total function), and returns the
same fixed confirmation string on every call. -/
theorem c8_reject_fixed_confirmation (u : Unit) :
    reject_email_tool u = "Email rejected by human approval.".toList := rfl

/-- C9: an empty-string disclaimer is falsy in Python, so `brand_check`
treats it exactly like an absent disclaimer: the whole result coincides
with the no-disclaimer result, and the returned body variants are exactly
the input body variants (the list the draft holds, or `[]` if the key is
missing). -/
theorem c9_empty_disclaimer_like_absent (d : DraftEmail)
    (bp : Option (List PyStr)) (lim : Option Int) :
    brand_check d ⟨bp, lim, some []⟩ = brand_check d ⟨bp, lim, Option.none⟩ ∧
    (brand_check d ⟨bp, lim, some []⟩).body_variants = some (d.body_variants.getD []) :=
  ⟨rfl, rfl⟩

/-- C10: `brand_check` is total over dictionaries missing its expected
keys: a draft without `subject_lines` yields the empty subject list, a
draft without `body_variants` yields the empty body list, guidelines
without `banned_phrases` behave exactly like an empty banned list, and
guidelines without `subject_length_limit` behave exactly like the limit
60. Totality itself holds by construction: the model is a total Lean
function because every dictionary access in the source goes through
`dict.get` with a default. -/
theorem c10_total_on_missing_keys (g : CreativeGuidelines) (d : DraftEmail)
    (sl bv : Option (List PyStr)) :
    (brand_check ⟨Option.none, bv⟩ g).subject_lines = some [] ∧
    (brand_check ⟨sl, Option.none⟩ g).body_variants = some [] ∧
    brand_check d ⟨Option.none, g.subject_length_limit, g.disclaimer⟩ =
      brand_check d ⟨some [], g.subject_length_limit, g.disclaimer⟩ ∧
    brand_check d ⟨g.banned_phrases, Option.none, g.disclaimer⟩ =
      brand_check d ⟨g.banned_phrases, some 60, g.disclaimer⟩ := by
  refine ⟨rfl, ?_, rfl, rfl⟩
  cases h : strTruthy g.disclaimer <;> simp [brand_check, h]

end EmailGen

namespace EmailGen

/-- C5: for every draft and guidelines with positive subject length limit
(the stored limit, or the default 60 when the key is missing):
the returned body list is never longer than the input body list; every
returned subject has length at most the limit; no returned subject
case-insensitively contains any banned phrase; and the returned subjects
are, in order, a sublist of the input subjects each transformed by
truncate-and-rstrip — so surviving subjects keep their original relative
order and dropped ones are not replaced. -/
theorem c5_brand_check_governs (d : DraftEmail) (g : CreativeGuidelines)
    (hpos : 0 < g.subject_length_limit.getD 60) :
    ((brand_check d g).body_variants.getD []).length ≤
      (d.body_variants.getD []).length ∧
    (∀ s ∈ (brand_check d g).subject_lines.getD [],
        s.length ≤ (g.subject_length_limit.getD 60).toNat) ∧
    (∀ s ∈ (brand_check d g).subject_lines.getD [],
        ∀ b ∈ g.banned_phrases.getD [], pyIn (pyLower b) (pyLower s) = false) ∧
    List.Sublist ((brand_check d g).subject_lines.getD [])
      ((d.subject_lines.getD []).map
        (processSubject (g.subject_length_limit.getD 60))) := by
  have hpos' : (0 : Int) ≤ g.subject_length_limit.getD 60 := le_of_lt hpos
  refine ⟨?_, ?_, ?_, ?_⟩
  · cases h : strTruthy g.disclaimer <;> simp [brand_check, h]
  · intro s hs
    simp only [brand_check, Option.getD_some, List.mem_filterMap] at hs
    obtain ⟨a, _, hfa⟩ := hs
    by_cases hc :
        ((g.banned_phrases.getD []).map pyLower).any (fun b => pyIn b (pyLower a)) = true
    · rw [if_pos hc] at hfa
      exact Option.noConfusion hfa
    · rw [if_neg hc] at hfa
      injection hfa with hfa
      subst hfa
      exact processSubject_length_le _ hpos' a
  · intro s hs b hb
    simp only [brand_check, Option.getD_some, List.mem_filterMap] at hs
    obtain ⟨a, _, hfa⟩ := hs
    by_cases hc :
        ((g.banned_phrases.getD []).map pyLower).any (fun bb => pyIn bb (pyLower a)) = true
    · rw [if_pos hc] at hfa
      exact Option.noConfusion hfa
    · rw [if_neg hc] at hfa
      injection hfa with hfa
      subst hfa
      cases hpi : pyIn (pyLower b) (pyLower (processSubject (g.subject_length_limit.getD 60) a)) with
      | false => rfl
      | true =>
        exfalso
        apply hc
        rw [List.any_eq_true]
        refine ⟨pyLower b, List.mem_map_of_mem _ hb, ?_⟩
        exact pyIn_mono _ _ _ ((processSubject_prefix_self _ a).map Char.toLower) hpi
  · exact filterMap_if_sublist _ _ _

end EmailGen

namespace EmailGen

/-- C5 witness: the scenario 1 guidelines have the positive limit 15, so
`c5_brand_check_governs` applies to the scenario 1 inputs. -/
theorem c5_witness :
    0 < scenario1Guidelines.subject_length_limit.getD 60 ∧
    (((brand_check scenario1Draft scenario1Guidelines).body_variants.getD []).length ≤
        (scenario1Draft.body_variants.getD []).length ∧
      (∀ s ∈ (brand_check scenario1Draft scenario1Guidelines).subject_lines.getD [],
          s.length ≤ (scenario1Guidelines.subject_length_limit.getD 60).toNat) ∧
      (∀ s ∈ (brand_check scenario1Draft scenario1Guidelines).subject_lines.getD [],
          ∀ b ∈ scenario1Guidelines.banned_phrases.getD [],
            pyIn (pyLower b) (pyLower s) = false) ∧
      List.Sublist ((brand_check scenario1Draft scenario1Guidelines).subject_lines.getD [])
        ((scenario1Draft.subject_lines.getD []).map
          (processSubject (scenario1Guidelines.subject_length_limit.getD 60)))) :=
  ⟨by decide, c5_brand_check_governs scenario1Draft scenario1Guidelines (by decide)⟩

/-- The draft used to refute the unconditional idempotence claim. -/
def c6Draft : DraftEmail := ⟨some ["abcdef".toList], some []⟩

/-- Guidelines with empty banned phrases, no disclaimer, and the NEGATIVE
subject length limit -2: Python slicing `s[:-2]` then removes the last two
characters of `s` on every pass. -/
def c6BadGuidelines : CreativeGuidelines := ⟨some [], some (-2), Option.none⟩

/-- Guidelines with empty banned phrases, no disclaimer, and a nonnegative
subject length limit. -/
def c6GoodGuidelines : CreativeGuidelines := ⟨some [], some 2, Option.none⟩

/-- C6 counterexample: the claim asserts idempotence of `brand_check` for
EVERY guidelines value with empty banned phrases and no disclaimer. It
fails when `subject_length_limit` is negative: with limit -2 the first
pass turns the subject `"abcdef"` into `"abcd"` and the second pass turns
that into `"ab"`, so the second application changes the output again. -/
theorem c6_counterexample :
    brand_check (brand_check c6Draft c6BadGuidelines) c6BadGuidelines ≠
      brand_check c6Draft c6BadGuidelines := by decide

/-- C6 amended: with an empty banned phrase set, no (or an empty)
disclaimer, and a NONNEGATIVE subject length limit (the stored value, or
the default 60 when the key is missing), `brand_check` is idempotent. -/
theorem c6_amended_idempotent (d : DraftEmail) (g : CreativeGuidelines)
    (hb : g.banned_phrases.getD [] = [])
    (hdis : strTruthy g.disclaimer = false)
    (hl : 0 ≤ g.subject_length_limit.getD 60) :
    brand_check (brand_check d g) g = brand_check d g := by
  have hmap : ∀ M : List PyStr,
      (M.filterMap fun s =>
        if ((g.banned_phrases.getD []).map pyLower).any (fun b => pyIn b (pyLower s)) then
          Option.none
        else some (processSubject (g.subject_length_limit.getD 60) s)) =
      M.map (processSubject (g.subject_length_limit.getD 60)) := fun M => by
    rw [hb]
    exact congrFun (List.filterMap_eq_map _) M
  have e1 : ∀ de : DraftEmail, brand_check de g =
      ⟨some ((de.subject_lines.getD []).map
          (processSubject (g.subject_length_limit.getD 60))),
        some (de.body_variants.getD [])⟩ := by
    intro de
    simp only [brand_check, hdis, hmap]
    simp
  rw [e1 (brand_check d g), e1 d]
  simp only [Option.getD_some]
  have hPP : ((d.subject_lines.getD []).map
        (processSubject (g.subject_length_limit.getD 60))).map
        (processSubject (g.subject_length_limit.getD 60)) =
      (d.subject_lines.getD []).map (processSubject (g.subject_length_limit.getD 60)) := by
    rw [List.map_map]
    exact List.map_congr_left fun a _ => processSubject_idem _ hl a
  rw [hPP]

/-- C6 witness: the amended idempotence applied to a concrete draft and
concrete guidelines with empty banned phrases, no disclaimer, and the
nonnegative limit 2. -/
theorem c6_witness :
    (c6GoodGuidelines.banned_phrases.getD [] = [] ∧
      strTruthy c6GoodGuidelines.disclaimer = false ∧
      0 ≤ c6GoodGuidelines.subject_length_limit.getD 60) ∧
    brand_check (brand_check c6Draft c6GoodGuidelines) c6GoodGuidelines =
      brand_check c6Draft c6GoodGuidelines :=
  ⟨by decide,
    c6_amended_idempotent c6Draft c6GoodGuidelines (by decide) (by decide) (by decide)⟩

end EmailGen
